import Mathlib

/-!
Shallow embedding of the two widgets of this repository (`src/stylejs.js`):
the `Carousel` paging engine and the `Countdown` character limiter.

Modelling conventions:
* JavaScript numbers that hold pixel measurements are modelled as exact
  rationals (`ℚ`); integer-valued counters (`_limitPerPage`, `_currentPage`,
  `_pages`, `_async`, `_items.length`) are modelled as `ℤ`, matching the
  integer arithmetic the source performs on them.
* DOM reads are inputs: measured widths and the current text length of the
  observed form control enter the model as explicit arguments.
* Purely presentational DOM writes (CSS class toggling, ARIA attributes,
  innerHTML of thumbnails, the rendered message text, toFixed formatting)
  carry no state the claims mention and are not modelled; state-bearing
  effects (the stored translation, the list width, the selected pagination
  thumbnail, the arrow disabled flags, the error flag of Countdown) are
  kept as fields.
* `emit` calls are modelled by returning the list of notifications an
  operation fires, in emission order.
-/

/-- Notifications emitted by a Carousel (`this.emit(...)` calls in the
source). `itemsadd` carries the number of newly injected placeholder
items (the source passes the slice of the last `counter` items). -/
inductive CarouselEv : Type
  | itemsadd (count : ℤ)
  | selectEv
  | prevEv
  | nextEv
  | refreshEv
  deriving DecidableEq, Repr

/-- Notifications emitted by a Countdown. -/
inductive CountdownEv : Type
  | exceed
  deriving DecidableEq, Repr

/-- Configuration of a Carousel that the modelled operations read:
`pagination`, `autoMargin` and the optional `limitPerPage` cap.
(`async` only seeds the `_async` field at construction; `arrows`, `fx` and
`autoHeight` only affect presentation.) -/
structure CarouselOptions : Type where
  pagination : Bool
  autoMargin : Bool
  limitPerPage : Option ℤ
  deriving DecidableEq, Repr

/-- The mutable state of a Carousel instance: the private fields of the
source object that the paging/layout algorithm reads and writes, plus the
applied list translation (the argument of the last `_translate` call). -/
structure CarouselState : Type where
  maskWidth : ℚ
  itemWidth : ℚ
  itemOuterWidth : ℚ
  itemExtraWidth : ℚ
  itemHeight : ℚ
  itemMargin : ℚ
  pageWidth : ℚ
  listWidth : ℚ
  translation : ℚ
  limitPerPage : ℤ
  currentPage : ℤ
  pages : ℤ
  async : ℤ
  itemsLen : ℤ
  paginationSelected : ℤ
  enabled : Bool
  arrowsCreated : Bool
  paginationCreated : Bool
  prevDisabled : Bool
  nextDisabled : Bool
  deriving DecidableEq, Repr

/-- Configuration of a Countdown: `max` plus the two message templates. -/
structure CountdownOptions : Type where
  max : ℤ
  plural : String
  singular : String
  deriving DecidableEq, Repr

/-- The mutable state of a Countdown instance: `_remaining`, `_exceeded`,
the component's enabled flag, and whether the error decoration
(`aria-invalid` / `ch-validation-error` / `ch-countdown-exceeded`) is
currently applied. -/
structure CountdownState : Type where
  remaining : ℤ
  exceeded : Bool
  enabled : Bool
  errorShown : Bool
  deriving DecidableEq, Repr

/-- `Countdown.prototype._init` bookkeeping: `_remaining` is set from the
initial content length; `_exceeded` is untouched (falsy), the component
starts enabled, no error decoration is applied. -/
def Countdown.initState (o : CountdownOptions) (len0 : ℕ) : CountdownState :=
  { remaining := o.max - (len0 : ℤ)
    exceeded := false
    enabled := true
    errorShown := false }

/-- `Countdown.prototype._removeError`: clears the error decoration. -/
def Countdown.removeError (s : CountdownState) : CountdownState :=
  { s with errorShown := false }

/-- `Countdown.prototype._count`, driven by the current content length
`len` (the source reads it via `this._contentLength()`). Returns the new
state and the notifications emitted. -/
def Countdown.count (o : CountdownOptions) (len : ℕ) (s : CountdownState) :
    CountdownState × List CountdownEv :=
  if s.enabled = false then (s, [])
  else
    let s1 : CountdownState := { s with remaining := o.max - (len : ℤ) }
    if (len : ℤ) ≤ o.max then
      (if s1.exceeded = true then
        Countdown.removeError { s1 with exceeded := false }
       else s1, [])
    else
      ({ s1 with exceeded := true, errorShown := true }, [CountdownEv.exceed])

/-- `Carousel.prototype._loadAsyncItems`. The source computes
`total = currentPage * limitPerPage`, `amount = total - items.length`,
caps `amount` by the stored `_async`, builds that many placeholder
`<li>` strings in a `while (amount)` loop that moves the count into
`counter` (leaving `amount === 0`), appends them, and only then executes
`this._async -= amount` — which therefore subtracts the final value 0. -/
def Carousel.loadAsyncItems (s : CarouselState) : CarouselState × List CarouselEv :=
  if s.async = 0 then (s, [])
  else
    let total := s.currentPage * s.limitPerPage
    let amount := total - s.itemsLen
    if amount < 1 then (s, [])
    else
      let capped := if s.async < amount then s.async else amount
      -- the while loop: `counter` ends at the capped amount, `amount` at 0
      let counter := capped
      let amountAfterLoop : ℤ := 0
      ({ s with itemsLen := s.itemsLen + counter,
                async := s.async - amountAfterLoop },
        [CarouselEv.itemsadd counter])

/-- `Carousel.prototype._disableArrows`: records the disabled state of
both arrows (the classname/ARIA toggles it performs). -/
def Carousel.disableArrows (prev next : Bool) (s : CarouselState) : CarouselState :=
  { s with prevDisabled := prev, nextDisabled := next }

/-- `Carousel.prototype._updateArrows`: four-way case split on the current
page and total pages; does nothing before the arrows are created. -/
def Carousel.updateArrows (s : CarouselState) : CarouselState :=
  if s.arrowsCreated = false then s
  else if s.pages = 1 then Carousel.disableArrows true true s
  else if s.currentPage = 1 then Carousel.disableArrows true false s
  else if s.currentPage = s.pages then Carousel.disableArrows false true s
  else Carousel.disableArrows false false s

/-- `Carousel.prototype._addPagination`: rebuilds the thumbnails with the
thumbnail of the current page selected and marks the pagination created.
(The generated markup itself is presentational.) -/
def Carousel.addPagination (s : CarouselState) : CarouselState :=
  { s with paginationSelected := s.currentPage, paginationCreated := true }

/-- `Carousel.prototype._switchPagination`: moves the selected-thumbnail
marker from page `fromPage` to page `toPage`; a no-op before the
pagination is created. -/
def Carousel.switchPagination (fromPage toPage : ℤ) (s : CarouselState) : CarouselState :=
  if s.paginationCreated = false then s
  else { s with paginationSelected := toPage }

/-- `Carousel.prototype._updatePages`: recomputes
`_pages = Math.ceil((items.length + _async) / _limitPerPage)`, then runs
`_loadAsyncItems`, `_updateARIA` (presentational), `_updateArrows`, and
`_addPagination` when the pagination option is on. -/
def Carousel.updatePages (o : CarouselOptions) (s : CarouselState) :
    CarouselState × List CarouselEv :=
  let s1 := { s with pages := Int.ceil (((s.itemsLen + s.async : ℤ) : ℚ) / ((s.limitPerPage : ℤ) : ℚ)) }
  let r := Carousel.loadAsyncItems s1
  let s2 := Carousel.updateArrows r.fst
  let s3 := if o.pagination then Carousel.addPagination s2 else s2
  (s3, r.snd)

/-- The pure computation inside `Carousel.prototype._updateLimitPerPage`:
`Math.floor(maskWidth / itemOuterWidth) || 1`, then clamped to the
configured `limitPerPage` when that is set and exceeded. -/
def Carousel.computeLimitPerPage (maskWidth itemOuterWidth : ℚ) (maxCfg : Option ℤ) : ℤ :=
  let floorVal := Int.floor (maskWidth / itemOuterWidth)
  let limitPerPage := if floorVal = 0 then 1 else floorVal
  match maxCfg with
  | some m => if limitPerPage > m then m else limitPerPage
  | none => limitPerPage

/-- `Carousel.prototype.select` with a defined `page` argument (the
argumentless getter overload is not modelled). Guard: disabled, already
current, or out of `[1, pages]` means no state change and no
notification; otherwise translate the list, switch the pagination
thumbnail, update the current page and the arrows, load asynchronous
items, and emit `select` (after any `itemsadd`). -/
def Carousel.select (o : CarouselOptions) (s : CarouselState) (page : ℤ) :
    CarouselState × List CarouselEv :=
  if s.enabled = false ∨ page = s.currentPage ∨ page < 1 ∨ page > s.pages then
    (s, [])
  else
    let sA := { s with translation := -s.pageWidth * ((page : ℚ) - 1) }
    let sB := Carousel.switchPagination sA.currentPage page sA
    let sC := { sB with currentPage := page }
    let sD := Carousel.updateArrows sC
    let r := Carousel.loadAsyncItems sD
    (r.fst, r.snd ++ [CarouselEv.selectEv])

/-- `Carousel.prototype._updateLimitPerPage`: recomputes the per-page
limit; on a change, stores it, recomputes pages (`_updatePages`) and
re-selects the page holding the previously first visible item. -/
def Carousel.updateLimitPerPage (o : CarouselOptions) (s : CarouselState) :
    CarouselState × List CarouselEv :=
  let limitPerPage := Carousel.computeLimitPerPage s.maskWidth s.itemOuterWidth o.limitPerPage
  if limitPerPage = s.limitPerPage then (s, [])
  else
    let firstItemOnPage := (s.currentPage - 1) * s.limitPerPage + 1
    let s1 := { s with limitPerPage := limitPerPage }
    let r1 := Carousel.updatePages o s1
    let r2 := Carousel.select o r1.fst (Int.ceil (((firstItemOnPage : ℤ) : ℚ) / ((limitPerPage : ℤ) : ℚ)))
    (r2.fst, r1.snd ++ r2.snd)

/-- The `extraWidth` value derived at the top of
`Carousel.prototype._updateDistribution`: the free space
`maskWidth - itemOuterWidth * limitPerPage`, distributed as
`freeSpace / limitPerPage / 2` (auto-margin) or `freeSpace / limitPerPage`
when more than one item fits a page, and as the whole free space
otherwise. -/
def Carousel.derivedExtraWidth (o : CarouselOptions) (s : CarouselState) : ℚ :=
  let moreThanOne := 1 < s.limitPerPage
  let freeSpace := s.maskWidth - s.itemOuterWidth * ((s.limitPerPage : ℤ) : ℚ)
  let freeSpaceDistribution :=
    if o.autoMargin then freeSpace / ((s.limitPerPage : ℤ) : ℚ) / 2
    else freeSpace / ((s.limitPerPage : ℤ) : ℚ)
  if moreThanOne then freeSpaceDistribution else freeSpace

/-- The `_itemMargin` value `Carousel.prototype._updateDistribution`
assigns when it does not return early: `freeSpace / spaces / 2` with
`spaces = limitPerPage - 1` when auto-margin is on and more than one item
fits a page, and `0` otherwise. -/
def Carousel.derivedItemMargin (o : CarouselOptions) (s : CarouselState) : ℚ :=
  let moreThanOne := 1 < s.limitPerPage
  let freeSpace := s.maskWidth - s.itemOuterWidth * ((s.limitPerPage : ℤ) : ℚ)
  let spaces : ℤ := if moreThanOne then s.limitPerPage - 1 else 0
  if o.autoMargin = true ∧ moreThanOne then freeSpace / ((spaces : ℤ) : ℚ) / 2 else 0

/-- The non-skipped tail of `Carousel.prototype._updateDistribution`:
store the derived extra width and margin, recompute the page width, the
list width (`pageWidth * pages`) and re-apply the translation of the
current page. -/
def Carousel.recomputeDistribution (o : CarouselOptions) (s : CarouselState) : CarouselState :=
  let extraWidth := Carousel.derivedExtraWidth o s
  let margin := Carousel.derivedItemMargin o s
  let pageWidth := (s.itemOuterWidth + extraWidth + margin) * ((s.limitPerPage : ℤ) : ℚ)
  { s with itemExtraWidth := extraWidth
           itemMargin := margin
           pageWidth := pageWidth
           listWidth := pageWidth * ((s.pages : ℤ) : ℚ)
           translation := -pageWidth * (((s.currentPage : ℤ) : ℚ) - 1) }

/-- `Carousel.prototype._updateDistribution`, translated whole: derive the
extra width; return unchanged when it equals the stored extra width and is
positive (`extraWidth === this._itemExtraWidth && extraWidth > 0`);
otherwise store the new distribution and re-position the list. -/
def Carousel.updateDistribution (o : CarouselOptions) (s : CarouselState) : CarouselState :=
  let moreThanOne := 1 < s.limitPerPage
  let freeSpace := s.maskWidth - s.itemOuterWidth * ((s.limitPerPage : ℤ) : ℚ)
  let freeSpaceDistribution :=
    if o.autoMargin then freeSpace / ((s.limitPerPage : ℤ) : ℚ) / 2
    else freeSpace / ((s.limitPerPage : ℤ) : ℚ)
  let extraWidth := if moreThanOne then freeSpaceDistribution else freeSpace
  if extraWidth = s.itemExtraWidth ∧ 0 < extraWidth then s
  else
    let spaces : ℤ := if moreThanOne then s.limitPerPage - 1 else 0
    let margin := if o.autoMargin = true ∧ moreThanOne then freeSpace / ((spaces : ℤ) : ℚ) / 2 else 0
    let pageWidth := (s.itemOuterWidth + extraWidth + margin) * ((s.limitPerPage : ℤ) : ℚ)
    { s with itemExtraWidth := extraWidth
             itemMargin := margin
             pageWidth := pageWidth
             listWidth := pageWidth * ((s.pages : ℤ) : ℚ)
             translation := -pageWidth * (((s.currentPage : ℤ) : ℚ) - 1) }

/-- `Carousel.prototype.prev`: always `select(currentPage - 1)` followed
by an unconditional `prev` notification; the instance is returned. -/
def Carousel.prev (o : CarouselOptions) (s : CarouselState) :
    CarouselState × List CarouselEv :=
  let r := Carousel.select o s (s.currentPage - 1)
  (r.fst, r.snd ++ [CarouselEv.prevEv])

/-- `Carousel.prototype.next`: always `select(currentPage + 1)` followed
by an unconditional `next` notification; the instance is returned. -/
def Carousel.next (o : CarouselOptions) (s : CarouselState) :
    CarouselState × List CarouselEv :=
  let r := Carousel.select o s (s.currentPage + 1)
  (r.fst, r.snd ++ [CarouselEv.nextEv])

/-- A reachable Carousel state used for the C9 witness: enabled, three
items per page, two pages. -/
def selectNoopState : CarouselState :=
  { maskWidth := 600, itemWidth := 200, itemOuterWidth := 200
    itemExtraWidth := 0, itemHeight := 100, itemMargin := 0
    pageWidth := 600, listWidth := 1200, translation := 0
    limitPerPage := 3, currentPage := 1, pages := 2
    async := 0, itemsLen := 6, paginationSelected := 1
    enabled := true, arrowsCreated := false, paginationCreated := false
    prevDisabled := true, nextDisabled := false }

/-- Options of a Carousel built as `new ch.Carousel(el, { async: 1 })`
(defaults: no pagination, auto margin, no per-page cap). -/
def asyncRunOptions : CarouselOptions :=
  { pagination := false, autoMargin := true, limitPerPage := none }

/-- State of that `async: 1` Carousel right after `_init` with one 200px
item in a 200px mask: one item per page, `pages = ceil((1+1)/1) = 2`. -/
def asyncRunState : CarouselState :=
  { maskWidth := 200, itemWidth := 200, itemOuterWidth := 200
    itemExtraWidth := 0, itemHeight := 100, itemMargin := 0
    pageWidth := 200, listWidth := 400, translation := 0
    limitPerPage := 1, currentPage := 1, pages := 2
    async := 1, itemsLen := 1, paginationSelected := 0
    enabled := true, arrowsCreated := false, paginationCreated := false
    prevDisabled := true, nextDisabled := false }

/-- The `async: 1` Carousel after the user selects page 2 (this injects
one placeholder item). -/
def asyncRunAfterSelect : CarouselState :=
  (Carousel.select asyncRunOptions asyncRunState 2).fst

/-- The same instance after the viewport then widens the mask to 400px:
`refresh` stores the new mask width and runs `_updateLimitPerPage`
followed by `_updateDistribution` (the item-count branch of `refresh`
does not fire because `_loadAsyncItems` keeps `_items` in sync with the
list's children). -/
def asyncRunAfterResize : CarouselState :=
  Carousel.updateDistribution asyncRunOptions
    (Carousel.updateLimitPerPage asyncRunOptions
      { asyncRunAfterSelect with maskWidth := 400 }).fst

/-- Options and state used for the C1 counterexample: auto margin, two
items per page exactly filling the mask (derived extra width 0, equal to
the stored extra width 0), with a stale `_pageWidth`. -/
def distSkipCexOptions : CarouselOptions :=
  { pagination := false, autoMargin := true, limitPerPage := none }

/-- See `distSkipCexOptions`. -/
def distSkipCexState : CarouselState :=
  { maskWidth := 400, itemWidth := 200, itemOuterWidth := 200
    itemExtraWidth := 0, itemHeight := 100, itemMargin := 0
    pageWidth := 7, listWidth := 0, translation := 0
    limitPerPage := 2, currentPage := 1, pages := 1
    async := 0, itemsLen := 2, paginationSelected := 0
    enabled := true, arrowsCreated := false, paginationCreated := false
    prevDisabled := false, nextDisabled := false }

/-- Options for the C6 counterexample: auto margin disabled. -/
def distAbsorbCexOptions : CarouselOptions :=
  { pagination := false, autoMargin := false, limitPerPage := none }

/-- State for the C6 counterexample: two 200px items per page in a 600px
mask, so the free space is 200. -/
def distAbsorbCexState : CarouselState :=
  { maskWidth := 600, itemWidth := 200, itemOuterWidth := 200
    itemExtraWidth := 0, itemHeight := 100, itemMargin := 0
    pageWidth := 400, listWidth := 800, translation := 0
    limitPerPage := 2, currentPage := 1, pages := 2
    async := 0, itemsLen := 4, paginationSelected := 0
    enabled := true, arrowsCreated := false, paginationCreated := false
    prevDisabled := true, nextDisabled := false }

/-- Options and state for the C5 witness: the spec scenario of a 600px
mask with 200px items (3 per page) and ten items. -/
def pagesFormulaOptions : CarouselOptions :=
  { pagination := false, autoMargin := false, limitPerPage := some 4 }

/-- See `pagesFormulaOptions`. -/
def pagesFormulaState : CarouselState :=
  { maskWidth := 600, itemWidth := 200, itemOuterWidth := 200
    itemExtraWidth := 0, itemHeight := 100, itemMargin := 0
    pageWidth := 600, listWidth := 0, translation := 0
    limitPerPage := 3, currentPage := 1, pages := 0
    async := 0, itemsLen := 10, paginationSelected := 0
    enabled := true, arrowsCreated := false, paginationCreated := false
    prevDisabled := true, nextDisabled := false }

/-- Claim C7: for every enabled Countdown with maximum `max`, after
processing an input event where the control's text has length `len`, the
stored remaining count equals `max - len` and the exceeded flag is true
exactly when `len > max`. -/
theorem count_remaining_exceeded (o : CountdownOptions) (s : CountdownState)
    (len : ℕ) (h : s.enabled = true) :
    (Countdown.count o len s).fst.remaining = o.max - (len : ℤ) ∧
      ((Countdown.count o len s).fst.exceeded = true ↔ o.max < (len : ℤ)) := by
  unfold Countdown.count
  rw [h]
  by_cases hle : (len : ℤ) ≤ o.max
  · rw [if_neg (by simp), if_pos hle]
    by_cases hex : s.exceeded = true
    · rw [if_pos hex]
      refine ⟨rfl, ?_⟩
      constructor
      · intro hc; exact absurd hc (by simp [Countdown.removeError])
      · intro hc; omega
    · rw [if_neg hex]
      refine ⟨rfl, ?_⟩
      constructor
      · intro hc
        exact absurd hc (by simpa using hex)
      · intro hc; omega
  · rw [if_neg (by simp), if_neg hle]
    exact ⟨rfl, by simpa using (by omega : o.max < (len : ℤ))⟩

/-- Claim C7 witness: the spec scenario `max = 140`, input length `141`
on an enabled instance gives `remaining = -1` and `exceeded = true`. -/
theorem count_remaining_exceeded_witness :
    (Countdown.count { max := 140, plural := "# characters left.", singular := "# character left." }
        141 (Countdown.initState { max := 140, plural := "# characters left.", singular := "# character left." } 0)).fst.remaining = -1 ∧
      (Countdown.count { max := 140, plural := "# characters left.", singular := "# character left." }
        141 (Countdown.initState { max := 140, plural := "# characters left.", singular := "# character left." } 0)).fst.exceeded = true := by
  have h := count_remaining_exceeded
    { max := 140, plural := "# characters left.", singular := "# character left." }
    (Countdown.initState { max := 140, plural := "# characters left.", singular := "# character left." } 0)
    141 rfl
  exact ⟨h.1.trans (by decide), h.2.mpr (by decide)⟩

/-- Claim C2 (amended): on an enabled Countdown, `_count` emits the
`exceed` notification exactly on those input events whose text length
exceeds `max` — so it fires at least once per crossing, and fires again on
every further event processed while the length stays above `max`. -/
theorem count_exceed_emission (o : CountdownOptions) (s : CountdownState)
    (len : ℕ) (h : s.enabled = true) :
    (Countdown.count o len s).snd =
      if o.max < (len : ℤ) then [CountdownEv.exceed] else [] := by
  unfold Countdown.count
  rw [h]
  by_cases hle : (len : ℤ) ≤ o.max
  · rw [if_neg (show ¬(true = false) by simp), if_pos hle,
      if_neg (show ¬o.max < (len : ℤ) by omega)]
  · rw [if_neg (show ¬(true = false) by simp), if_neg hle,
      if_pos (show o.max < (len : ℤ) by omega)]

/-- Claim C2 witness: with `max = 1` an enabled fresh instance processing
an event of length 2 emits `exceed`. -/
theorem count_exceed_emission_witness :
    (Countdown.count { max := 1, plural := "# characters left.", singular := "# character left." }
        2 (Countdown.initState { max := 1, plural := "# characters left.", singular := "# character left." } 0)).snd =
      if (1 : ℤ) < (2 : ℕ) then [CountdownEv.exceed] else [] :=
  count_exceed_emission
    { max := 1, plural := "# characters left.", singular := "# character left." }
    (Countdown.initState { max := 1, plural := "# characters left.", singular := "# character left." } 0)
    2 rfl

/-- Claim C2 counterexample: with `max = 1`, two successive events of
length 2 (a single crossing, then the length stays above `max`) each emit
an `exceed` notification; the second event emits even though no new
crossing from `length ≤ max` to `length > max` happened. -/
theorem count_exceed_repeat_cex :
    (Countdown.count { max := 1, plural := "p", singular := "s" } 2
        (Countdown.initState { max := 1, plural := "p", singular := "s" } 0)).snd =
      [CountdownEv.exceed] ∧
    (Countdown.count { max := 1, plural := "p", singular := "s" } 2
        (Countdown.count { max := 1, plural := "p", singular := "s" } 2
          (Countdown.initState { max := 1, plural := "p", singular := "s" } 0)).fst).snd =
      [CountdownEv.exceed] := by
  decide

/-- Claim C8 (amended): after an observed input event of length `len`,
the stored remaining count and exceeded flag equal `max - len` and
`len > max` respectively when the instance is enabled; a disabled
instance leaves both fields at their previous (possibly stale) values,
because `_count` returns before recomputing anything. -/
theorem count_state_characterization (o : CountdownOptions)
    (s : CountdownState) (len : ℕ) :
    (Countdown.count o len s).fst.remaining =
      (if s.enabled = true then o.max - (len : ℤ) else s.remaining) ∧
    (Countdown.count o len s).fst.exceeded =
      (if s.enabled = true then decide (o.max < (len : ℤ)) else s.exceeded) := by
  by_cases h : s.enabled = true
  · rw [if_pos h, if_pos h]
    have hmain := count_remaining_exceeded o s len h
    refine ⟨hmain.1, ?_⟩
    by_cases hlt : o.max < (len : ℤ)
    · rw [hmain.2.mpr hlt]
      exact (decide_eq_true hlt).symm
    · have hf : (Countdown.count o len s).fst.exceeded = false := by
        cases hb : (Countdown.count o len s).fst.exceeded
        · rfl
        · exact absurd (hmain.2.mp hb) hlt
      rw [hf]
      exact (decide_eq_false hlt).symm
  · have hφ : s.enabled = false := by simpa using h
    rw [if_neg h, if_neg h]
    unfold Countdown.count
    rw [if_pos hφ]
    exact ⟨rfl, rfl⟩

/-- Claim C8 counterexample: a disabled Countdown with `max = 140` and a
stale `remaining = 140` observes an event with text length 5; `_count`
returns immediately, so `remaining` stays 140 instead of `140 - 5`. -/
theorem count_disabled_stale_cex :
    (Countdown.count { max := 140, plural := "p", singular := "s" } 5
        { remaining := 140, exceeded := false, enabled := false, errorShown := false }).fst.remaining
      = 140 ∧
    (140 : ℤ) ≠ (140 : ℤ) - 5 := by
  decide

/-- The guard of `select`: any of the four no-op conditions short-circuits
the method with no state change and no notification. -/
theorem select_guard_eq (o : CarouselOptions) (s : CarouselState) (page : ℤ)
    (h : s.enabled = false ∨ page = s.currentPage ∨ page < 1 ∨ page > s.pages) :
    Carousel.select o s page = (s, []) := by
  unfold Carousel.select
  rw [if_pos h]

/-- `_loadAsyncItems` never changes `_pages`. -/
theorem loadAsyncItems_pages_eq (s : CarouselState) :
    (Carousel.loadAsyncItems s).fst.pages = s.pages := by
  simp only [Carousel.loadAsyncItems]
  split
  · rfl
  · split
    · rfl
    · rfl

/-- `_updateArrows` never changes `_pages`. -/
theorem updateArrows_pages_eq (s : CarouselState) :
    (Carousel.updateArrows s).pages = s.pages := by
  simp only [Carousel.updateArrows, Carousel.disableArrows]
  split_ifs <;> rfl

/-- `_addPagination` never changes `_pages`. -/
theorem addPagination_pages_eq (s : CarouselState) :
    (Carousel.addPagination s).pages = s.pages := rfl

/-- `_updateDistribution` factored through its early-return guard: it is
the identity when the derived extra width equals the stored one and is
positive, and the full recomputation otherwise. -/
theorem updateDistribution_branches_eq (o : CarouselOptions) (s : CarouselState) :
    Carousel.updateDistribution o s =
      if Carousel.derivedExtraWidth o s = s.itemExtraWidth ∧
          0 < Carousel.derivedExtraWidth o s
      then s
      else Carousel.recomputeDistribution o s := by
  unfold Carousel.updateDistribution Carousel.recomputeDistribution
    Carousel.derivedExtraWidth Carousel.derivedItemMargin
  rfl

/-- Claim C9: `select(page)` with a defined argument is a no-op — the
whole state (current page, translation, pagination state, arrows) is
unchanged and no notification is emitted; the method just returns the
instance — whenever the component is disabled, or `page` equals the
current page, or `page < 1`, or `page > pages`. -/
theorem select_noop (o : CarouselOptions) (s : CarouselState) (page : ℤ)
    (h : s.enabled = false ∨ page = s.currentPage ∨ page < 1 ∨ page > s.pages) :
    Carousel.select o s page = (s, []) :=
  select_guard_eq o s page h

/-- Claim C9 witness: selecting page 0 on an enabled two-page Carousel
changes nothing and emits nothing. -/
theorem select_noop_witness :
    Carousel.select { pagination := false, autoMargin := true, limitPerPage := none }
      selectNoopState 0 = (selectNoopState, []) :=
  select_noop { pagination := false, autoMargin := true, limitPerPage := none }
    selectNoopState 0 (Or.inr (Or.inr (Or.inl (by decide))))

/-- Claim C10: `prev()` always emits the `prev` notification and `next()`
always emits the `next` notification — also when the underlying page
selection is a no-op (component disabled, `prev()` on the first page,
`next()` on the last page, where the state is returned unchanged); both
return the instance. -/
theorem prev_next_always_emit (o : CarouselOptions) (s : CarouselState) :
    CarouselEv.prevEv ∈ (Carousel.prev o s).snd ∧
    CarouselEv.nextEv ∈ (Carousel.next o s).snd ∧
    (Carousel.prev o { s with enabled := false }).fst = { s with enabled := false } ∧
    CarouselEv.prevEv ∈ (Carousel.prev o { s with enabled := false }).snd ∧
    (Carousel.next o { s with enabled := false }).fst = { s with enabled := false } ∧
    CarouselEv.nextEv ∈ (Carousel.next o { s with enabled := false }).snd ∧
    (Carousel.prev o { s with currentPage := 1 }).fst = { s with currentPage := 1 } ∧
    (Carousel.next o { s with currentPage := s.pages }).fst = { s with currentPage := s.pages } := by
  refine ⟨?_, ?_, ?_, ?_, ?_, ?_, ?_, ?_⟩
  · show CarouselEv.prevEv ∈ (Carousel.select o s (s.currentPage - 1)).snd ++ [CarouselEv.prevEv]
    exact List.mem_append_right _ (List.mem_singleton.mpr rfl)
  · show CarouselEv.nextEv ∈ (Carousel.select o s (s.currentPage + 1)).snd ++ [CarouselEv.nextEv]
    exact List.mem_append_right _ (List.mem_singleton.mpr rfl)
  · show (Carousel.select o { s with enabled := false }
      (({ s with enabled := false } : CarouselState).currentPage - 1)).fst = { s with enabled := false }
    rw [select_guard_eq o { s with enabled := false } _ (Or.inl rfl)]
  · show CarouselEv.prevEv ∈ (Carousel.select o { s with enabled := false }
      (({ s with enabled := false } : CarouselState).currentPage - 1)).snd ++ [CarouselEv.prevEv]
    exact List.mem_append_right _ (List.mem_singleton.mpr rfl)
  · show (Carousel.select o { s with enabled := false }
      (({ s with enabled := false } : CarouselState).currentPage + 1)).fst = { s with enabled := false }
    rw [select_guard_eq o { s with enabled := false } _ (Or.inl rfl)]
  · show CarouselEv.nextEv ∈ (Carousel.select o { s with enabled := false }
      (({ s with enabled := false } : CarouselState).currentPage + 1)).snd ++ [CarouselEv.nextEv]
    exact List.mem_append_right _ (List.mem_singleton.mpr rfl)
  · show (Carousel.select o { s with currentPage := 1 }
      (({ s with currentPage := 1 } : CarouselState).currentPage - 1)).fst = { s with currentPage := 1 }
    rw [select_guard_eq o { s with currentPage := 1 } _
      (Or.inr (Or.inr (Or.inl (show (1 : ℤ) - 1 < 1 by norm_num))))]
  · show (Carousel.select o { s with currentPage := s.pages }
      (({ s with currentPage := s.pages } : CarouselState).currentPage + 1)).fst = { s with currentPage := s.pages }
    rw [select_guard_eq o { s with currentPage := s.pages } _
      (Or.inr (Or.inr (Or.inr (show s.pages + 1 > s.pages by omega))))]

/-- Claim C5: whenever `_updatePages` recomputes the page count, the
total number of pages equals
`ceil((items.length + pendingAsync) / limitPerPage)` at the values the
recomputation reads (entry of the method; the `_loadAsyncItems` call it
then makes never touches `_pages`). -/
theorem updatePages_pages_formula (o : CarouselOptions) (s : CarouselState)
    (h : 1 ≤ s.limitPerPage) :
    (Carousel.updatePages o s).fst.pages =
      Int.ceil (((s.itemsLen + s.async : ℤ) : ℚ) / ((s.limitPerPage : ℤ) : ℚ)) := by
  simp only [Carousel.updatePages]
  split
  · rw [addPagination_pages_eq, updateArrows_pages_eq, loadAsyncItems_pages_eq]
  · rw [updateArrows_pages_eq, loadAsyncItems_pages_eq]

/-- Claim C5 witness: the spec scenario — ten items, three per page, no
pending async items — yields `pages = ceil(10/3) = 4`. -/
theorem updatePages_pages_formula_witness :
    (Carousel.updatePages pagesFormulaOptions pagesFormulaState).fst.pages = 4 := by
  have h := updatePages_pages_formula pagesFormulaOptions pagesFormulaState (by decide)
  rw [h]
  norm_num [pagesFormulaState, Int.ceil_eq_iff]

/-- Claim C1 (amended): `_updateDistribution` skips the recomputation —
returning with the extra width, margin, page width, list width and
translation untouched — exactly when the newly derived extra width equals
the stored one AND is strictly positive; when both are (in particular)
zero, the recomputation proceeds. -/
theorem updateDistribution_skip_guard (o : CarouselOptions) (s : CarouselState) :
    Carousel.updateDistribution o s =
      if Carousel.derivedExtraWidth o s = s.itemExtraWidth ∧
          0 < Carousel.derivedExtraWidth o s
      then s
      else Carousel.recomputeDistribution o s :=
  updateDistribution_branches_eq o s

/-- Claim C1 counterexample: with auto margin, two 200px items exactly
filling a 400px mask, the derived extra width is 0 and equals the stored
extra width 0 — the claim says the method must return early leaving all
derived values unchanged, but the code recomputes (the stale
`_pageWidth = 7` becomes 400). -/
theorem updateDistribution_skip_claim_cex :
    Carousel.derivedExtraWidth distSkipCexOptions distSkipCexState =
      distSkipCexState.itemExtraWidth ∧
    Carousel.derivedExtraWidth distSkipCexOptions distSkipCexState = 0 ∧
    (Carousel.updateDistribution distSkipCexOptions distSkipCexState).pageWidth = 400 ∧
    distSkipCexState.pageWidth = 7 ∧
    Carousel.updateDistribution distSkipCexOptions distSkipCexState ≠ distSkipCexState := by
  refine ⟨?_, ?_, ?_, ?_, ?_⟩ <;>
    norm_num [Carousel.derivedExtraWidth, Carousel.updateDistribution,
      distSkipCexOptions, distSkipCexState]

/-- Claim C6 (amended): with free space
`F = maskWidth - itemOuterWidth * itemsPerPage`, the distribution
computation derives: extra width `F / itemsPerPage / 2` and margin
`F / (itemsPerPage - 1) / 2` when auto-margin is enabled and
`itemsPerPage > 1`; extra width `F / itemsPerPage` and margin 0 when
auto-margin is disabled and `itemsPerPage > 1`; and extra width `F`
(all of the free space) with margin 0 when `itemsPerPage = 1` (or fewer). -/
theorem distribution_formulas (o : CarouselOptions) (s : CarouselState) :
    Carousel.derivedExtraWidth o s =
      (if o.autoMargin = true ∧ 1 < s.limitPerPage then
        (s.maskWidth - s.itemOuterWidth * ((s.limitPerPage : ℤ) : ℚ)) / ((s.limitPerPage : ℤ) : ℚ) / 2
       else if 1 < s.limitPerPage then
        (s.maskWidth - s.itemOuterWidth * ((s.limitPerPage : ℤ) : ℚ)) / ((s.limitPerPage : ℤ) : ℚ)
       else s.maskWidth - s.itemOuterWidth * ((s.limitPerPage : ℤ) : ℚ)) ∧
    Carousel.derivedItemMargin o s =
      (if o.autoMargin = true ∧ 1 < s.limitPerPage then
        (s.maskWidth - s.itemOuterWidth * ((s.limitPerPage : ℤ) : ℚ)) / (((s.limitPerPage - 1 : ℤ)) : ℚ) / 2
       else 0) := by
  constructor
  · simp only [Carousel.derivedExtraWidth]
    split_ifs <;> first | rfl | tauto
  · simp only [Carousel.derivedItemMargin]
    split_ifs <;> first | rfl | tauto

/-- Claim C6 counterexample: auto margin disabled, two 200px items in a
600px mask: the free space is `F = 200`, and the claim's "otherwise"
branch says the extra width absorbs all of `F`; but the computation
stores `F / itemsPerPage = 100` as the item extra width, not 200. -/
theorem distribution_extra_absorb_cex :
    distAbsorbCexOptions.autoMargin = false ∧
    distAbsorbCexState.maskWidth -
        distAbsorbCexState.itemOuterWidth * ((distAbsorbCexState.limitPerPage : ℤ) : ℚ) = 200 ∧
    (Carousel.updateDistribution distAbsorbCexOptions distAbsorbCexState).itemMargin = 0 ∧
    (Carousel.updateDistribution distAbsorbCexOptions distAbsorbCexState).itemExtraWidth = 100 ∧
    (Carousel.updateDistribution distAbsorbCexOptions distAbsorbCexState).itemExtraWidth ≠ 200 := by
  refine ⟨?_, ?_, ?_, ?_, ?_⟩ <;>
    norm_num [Carousel.updateDistribution, distAbsorbCexOptions, distAbsorbCexState]

/-- Claim C4 (amended): for mask width `W ≥ 0`, item outer width
`Iw > 0`, and a configured per-page cap that is at least 1 when present,
the computed per-page limit is `max(1, floor(W / Iw))`, additionally
clamped to the cap; in particular it is always at least 1. (A cap of 0 or
less breaks the lower bound — see the counterexample.) -/
theorem computeLimitPerPage_formula (W Iw : ℚ) (M : Option ℤ)
    (hW : 0 ≤ W) (hIw : 0 < Iw) (hM : ∀ m, M = some m → 1 ≤ m) :
    Carousel.computeLimitPerPage W Iw M =
      (match M with
       | none => max 1 (Int.floor (W / Iw))
       | some m => min (max 1 (Int.floor (W / Iw))) m) ∧
    1 ≤ Carousel.computeLimitPerPage W Iw M := by
  have hf : 0 ≤ Int.floor (W / Iw) := Int.floor_nonneg.mpr (div_nonneg hW (le_of_lt hIw))
  unfold Carousel.computeLimitPerPage
  cases M with
  | none =>
    refine ⟨?_, ?_⟩ <;> (dsimp only; split_ifs <;> omega)
  | some m =>
    have hm : 1 ≤ m := hM m rfl
    refine ⟨?_, ?_⟩ <;> (dsimp only; split_ifs <;> omega)

/-- Claim C4 witness: a 600px mask with 200px items capped at 2 per page
gives `min(max(1, 3), 2) = 2 ≥ 1`. -/
theorem computeLimitPerPage_formula_witness :
    Carousel.computeLimitPerPage 600 200 (some 2) =
      (match (some 2 : Option ℤ) with
       | none => max 1 (Int.floor ((600 : ℚ) / 200))
       | some m => min (max 1 (Int.floor ((600 : ℚ) / 200))) m) ∧
    1 ≤ Carousel.computeLimitPerPage 600 200 (some 2) :=
  computeLimitPerPage_formula 600 200 (some 2) (by norm_num) (by norm_num)
    (fun m h => by injection h with h2; omega)

/-- Claim C4 counterexample: with `limitPerPage: 0` configured, a 600px
mask and 200px items, the code clamps the computed limit (3) down to the
cap 0 — so `itemsPerPage ≥ 1` does not always hold. -/
theorem computeLimitPerPage_min1_cex :
    Carousel.computeLimitPerPage 600 200 (some 0) < 1 := by
  norm_num [Carousel.computeLimitPerPage]

/-- `_updateDistribution` never changes the item count or the async
counter. -/
theorem updateDistribution_counts_eq (o : CarouselOptions) (s : CarouselState) :
    (Carousel.updateDistribution o s).itemsLen = s.itemsLen ∧
    (Carousel.updateDistribution o s).async = s.async := by
  rw [updateDistribution_branches_eq]
  split
  · exact ⟨rfl, rfl⟩
  · exact ⟨rfl, rfl⟩

/-- Claim C3 (the code at the claimed failing sequence): a Carousel
configured with async budget 1 injects one placeholder on `select(2)` and
a second one after a viewport resize (`refresh` stores the new mask width
and runs `_updateLimitPerPage` then `_updateDistribution`) — two items in
total, exceeding the budget of 1 — while `_async` remains 1 throughout,
because `this._async -= amount` executes after the `while (amount)` loop
has already driven `amount` to 0 (the injected count sits in `counter`,
which is only used to slice the notification payload). -/
theorem loadAsync_budget_run :
    asyncRunState.async = 1 ∧
    asyncRunState.itemsLen = 1 ∧
    (Carousel.select asyncRunOptions asyncRunState 2).snd =
      [CarouselEv.itemsadd 1, CarouselEv.selectEv] ∧
    asyncRunAfterSelect.itemsLen = 2 ∧
    asyncRunAfterSelect.async = 1 ∧
    asyncRunAfterResize.itemsLen = 3 ∧
    asyncRunAfterResize.async = 1 := by
  have hsel : Carousel.select asyncRunOptions asyncRunState 2 =
      ({ maskWidth := 200, itemWidth := 200, itemOuterWidth := 200, itemExtraWidth := 0
         itemHeight := 100, itemMargin := 0, pageWidth := 200, listWidth := 400
         translation := -200, limitPerPage := 1, currentPage := 2, pages := 2
         async := 1, itemsLen := 2, paginationSelected := 0, enabled := true
         arrowsCreated := false, paginationCreated := false, prevDisabled := true
         nextDisabled := false },
       [CarouselEv.itemsadd 1, CarouselEv.selectEv]) := by
    norm_num [Carousel.select, Carousel.switchPagination, Carousel.updateArrows,
      Carousel.disableArrows, Carousel.loadAsyncItems, asyncRunOptions, asyncRunState]
  have hlim : Carousel.updateLimitPerPage asyncRunOptions
      { maskWidth := 400, itemWidth := 200, itemOuterWidth := 200, itemExtraWidth := 0
        itemHeight := 100, itemMargin := 0, pageWidth := 200, listWidth := 400
        translation := -200, limitPerPage := 1, currentPage := 2, pages := 2
        async := 1, itemsLen := 2, paginationSelected := 0, enabled := true
        arrowsCreated := false, paginationCreated := false, prevDisabled := true
        nextDisabled := false } =
      ({ maskWidth := 400, itemWidth := 200, itemOuterWidth := 200, itemExtraWidth := 0
         itemHeight := 100, itemMargin := 0, pageWidth := 200, listWidth := 400
         translation := 0, limitPerPage := 2, currentPage := 1, pages := 2
         async := 1, itemsLen := 3, paginationSelected := 0, enabled := true
         arrowsCreated := false, paginationCreated := false, prevDisabled := true
         nextDisabled := false },
       [CarouselEv.itemsadd 1, CarouselEv.selectEv]) := by
    have hc : (⌈(3 : ℚ) / 2⌉ : ℤ) = 2 := by norm_num [Int.ceil_eq_iff]
    norm_num [Carousel.updateLimitPerPage, Carousel.computeLimitPerPage,
      Carousel.updatePages, Carousel.loadAsyncItems, Carousel.updateArrows,
      Carousel.addPagination, Carousel.select, Carousel.switchPagination,
      Carousel.disableArrows, asyncRunOptions, hc]
  have harg : ({ asyncRunAfterSelect with maskWidth := 400 } : CarouselState) =
      { maskWidth := 400, itemWidth := 200, itemOuterWidth := 200, itemExtraWidth := 0
        itemHeight := 100, itemMargin := 0, pageWidth := 200, listWidth := 400
        translation := -200, limitPerPage := 1, currentPage := 2, pages := 2
        async := 1, itemsLen := 2, paginationSelected := 0, enabled := true
        arrowsCreated := false, paginationCreated := false, prevDisabled := true
        nextDisabled := false } := by
    show ({ (Carousel.select asyncRunOptions asyncRunState 2).fst with maskWidth := 400 } : CarouselState) = _
    rw [hsel]
  refine ⟨rfl, rfl, ?_, ?_, ?_, ?_, ?_⟩
  · rw [hsel]
  · show (Carousel.select asyncRunOptions asyncRunState 2).fst.itemsLen = 2
    rw [hsel]
  · show (Carousel.select asyncRunOptions asyncRunState 2).fst.async = 1
    rw [hsel]
  · show (Carousel.updateDistribution asyncRunOptions
      (Carousel.updateLimitPerPage asyncRunOptions
        { asyncRunAfterSelect with maskWidth := 400 }).fst).itemsLen = 3
    rw [(updateDistribution_counts_eq asyncRunOptions _).1, harg, hlim]
  · show (Carousel.updateDistribution asyncRunOptions
      (Carousel.updateLimitPerPage asyncRunOptions
        { asyncRunAfterSelect with maskWidth := 400 }).fst).async = 1
    rw [(updateDistribution_counts_eq asyncRunOptions _).2, harg, hlim]
